import Mathlib

/-!
Verification model of the Advanced Batch Renderer add-on
(src/advanced_batch_renderer.py, version 3.1.17).

The Python module keeps one process-wide mutable dictionary
render_state, a per-scene render queue property group, several
operators (refresh, move, start/cancel control, pause/resume, the
internal queue step) and three application handlers (render_pre,
render_post, render_cancel).  This file translates those pieces into
pure Lean functions over an explicit world state.

Modelling conventions:
* Wall-clock times are rationals and are passed to the handlers as an
  explicit parameter (the source reads time.time()).
* Blender data (bpy.data.scenes, context.window.scene) is carried in a
  World structure.  The add-on registers render_queue on every scene
  but always reaches it through the scene the user operates in
  (context.scene); the model therefore keeps a single queue, which is
  exact for runs whose jobs live in the operating scene and for every
  concrete state considered below.
* Python exceptions (AttributeError, IndexError, KeyError) are modelled
  with Except String.
* Filesystem path joining and the timedelta/float formatting of the
  ETA display string are abstracted: output paths are plain string
  concatenations and numbers are rendered with toString.
-/

inductive RenderType
  | IMAGE
  | ANIMATION
  deriving DecidableEq

/-- One entry of the render queue (class RenderQueueItem, lines 41 to 64
of the source).  Field defaults follow the property definitions. -/
structure RenderQueueItem where
  scene_name : String := ""
  camera_name : String := ""
  enabled : Bool := true
  render_type : RenderType := RenderType.IMAGE
  progress : Int := 0
  status : String := "Pending"
  deriving DecidableEq

/-- The queue property group (class RenderQueuePropertyGroup). -/
structure RenderQueueGroup where
  items : List RenderQueueItem := []
  active_index : Int := 0
  eta_display : String := "Ready. Press Refresh to build queue."
  deriving DecidableEq

/-- The module-level render_state dictionary (lines 25 to 35).  The
timer entry only matters through being set or not, so it is a Bool. -/
structure RenderState where
  is_rendering : Bool := false
  is_paused : Bool := false
  is_refreshing : Bool := false
  current_item_index : Int := -1
  original_scene : Option String := none
  original_path : Option String := none
  timer : Bool := false
  job_start_time : ℚ := 0
  frame_times : List ℚ := []
  deriving DecidableEq

/-- The initial value of render_state, also the value render_cleanup
resets it to (lines 235 to 239). -/
def initial_render_state : RenderState := {}

/-- An object inside a scene; obj_type is the string CAMERA for
cameras (the enumeration in refresh filters on it). -/
structure SceneObject where
  name : String := ""
  obj_type : String := ""
  deriving DecidableEq

/-- A Blender scene: the fields of bpy.types.Scene the add-on touches
(frame range, active camera, render.filepath). -/
structure Scene where
  name : String := ""
  objects : List SceneObject := []
  frame_start : Int := 1
  frame_end : Int := 1
  frame_current : Int := 1
  camera : Option String := none
  filepath : String := ""
  deriving DecidableEq

/-- The whole mutable state the add-on can reach: render_state, the
scene database, the window scene (context.window.scene, by name), the
operating queue (context.scene.render_queue) and the three handler
registrations (membership of on_render_pre and friends in the
bpy.app.handlers lists). -/
structure World where
  st : RenderState := {}
  scenes : List Scene := []
  window_scene : String := ""
  queue : RenderQueueGroup := {}
  handler_pre : Bool := false
  handler_post : Bool := false
  handler_cancel : Bool := false
  deriving DecidableEq

/-- bpy.data.scenes.get(name): first scene with the given name. -/
def lookupScene (scenes : List Scene) (name : String) : Option Scene :=
  scenes.find? (fun sc => sc.name == name)

/-- Update the scene with the given name (assignment through a scene
reference in Python). -/
def setScene (scenes : List Scene) (name : String) (f : Scene → Scene) :
    List Scene :=
  scenes.map (fun sc => if sc.name == name then f sc else sc)

/-- scene.objects.get(name). -/
def lookupObject (objs : List SceneObject) (name : String) :
    Option SceneObject :=
  objs.find? (fun o => o.name == name)

/-- Python list indexing: nonnegative indices from the front, negative
indices wrap from the back, anything else is an IndexError. -/
def pyIndex (len : Nat) (i : Int) : Option Nat :=
  if 0 ≤ i then (if i < (len : Int) then some i.toNat else none)
  else (if 0 ≤ i + (len : Int) then some (i + (len : Int)).toNat else none)

/-- items[i] with Python semantics. -/
def pyGet {α : Type} (l : List α) (i : Int) : Except String α :=
  match pyIndex l.length i with
  | some n =>
    match l.get? n with
    | some a => Except.ok a
    | none => Except.error "IndexError: list index out of range"
  | none => Except.error "IndexError: list index out of range"

/-- items[i].field = value with Python semantics (mutating the fetched
element in place mutates the collection entry). -/
def pySet {α : Type} (l : List α) (i : Int) (f : α → α) :
    Except String (List α) :=
  match pyIndex l.length i with
  | some n =>
    match l.get? n with
    | some a => Except.ok (l.set n (f a))
    | none => Except.error "IndexError: list index out of range"
  | none => Except.error "IndexError: list index out of range"

/-- In-bounds list update; used where the source guards the index with
an explicit bounds check (0 <= idx < len(queue.items)) so that the
update itself cannot fail. -/
def listSet {α : Type} (l : List α) (n : Nat) (f : α → α) : List α :=
  match l.get? n with
  | some a => l.set n (f a)
  | none => l

/-- The scan loop of get_next_render_item walking the remaining suffix
of the queue while carrying the absolute index of its head. -/
def get_next_render_item_go : List RenderQueueItem → Nat → Int
  | [], _ => -1
  | it :: rest, i =>
    if it.enabled then (i : Int) else get_next_render_item_go rest (i + 1)

/-- The scan of get_next_render_item (lines 203 to 206):
for i in range(start_index, len(queue)): if queue[i].enabled: return i
with -1 for exhaustion.  Iterating the indices from start to the end
of the list is the same as walking the suffix dropped at start. -/
def get_next_render_item_from (items : List RenderQueueItem)
    (start : Nat) : Int :=
  get_next_render_item_go (items.drop start) start

/-- get_next_render_item (lines 199 to 206).  The source reads the
global current_item_index and starts the scan one past it; within the
program current_item_index is always at least -1, so the Int.toNat
coercion of current_item_index + 1 is exact. -/
def get_next_render_item (items : List RenderQueueItem)
    (current_item_index : Int) : Int :=
  get_next_render_item_from items (current_item_index + 1).toNat

/-- Whether the item at position i exists and is enabled. -/
def enabledAt (items : List RenderQueueItem) (i : Nat) : Bool :=
  match items.get? i with
  | some it => it.enabled
  | none => false

/-- Operator return values: the sets Blender operators return, plus the
string passed to self.report when one is issued. -/
inductive OpStatus
  | FINISHED
  | CANCELLED
  | RUNNING_MODAL
  deriving DecidableEq

structure OpResult where
  status : OpStatus
  report : Option String := none
  deriving DecidableEq

/-- What one successful pass of the queue step decided to do. -/
inductive StepAction
  | queueExhausted
  | dispatched (scene_name camera_name : String) (render_type : RenderType)
  deriving DecidableEq

/-- The body of RENDER_OT_render_queue_step.execute from the point the
next item is looked up (lines 397 to 427), with the recursive
return self.execute(context) on a resolution failure realised as
structural recursion on an explicit fuel.  Each recursive call scans
from one past the index it just marked, which is strictly beyond the
previous scan start, so any fuel larger than the number of remaining
items suffices; the fuel-exhausted branch is provably dead for such
fuel (see the termination theorem for claim C10) and every caller
passes items.length + 1.  Returns the updated item list, the final
current_item_index, the action taken, and the number of recursive
self-invocations.  The source evaluates
render_scene.objects.get(item.camera_name) before the combined
if not render_scene or not camera check, so a missing scene raises
AttributeError; only a missing camera reaches the error-skip path. -/
def step_go (scenes : List Scene) :
    Nat → List RenderQueueItem → Nat →
    Except String (List RenderQueueItem × Int × StepAction × Nat)
  | 0, _, _ => Except.error "unreachable: fuel exhausted"
  | fuel + 1, items, start =>
    let next := get_next_render_item_from items start
    if next = -1 then
      Except.ok (items, -1, StepAction.queueExhausted, 0)
    else
      let i := next.toNat
      match items.get? i with
      | none => Except.error "IndexError: list index out of range"
      | some item =>
        match lookupScene scenes item.scene_name with
        | none =>
          Except.error
            "AttributeError: NoneType object has no attribute objects"
        | some render_scene =>
          let camera := lookupObject render_scene.objects item.camera_name
          match camera with
          | none =>
            let items1 := items.set i { item with status := "Error: Not found" }
            match step_go scenes fuel items1 (i + 1) with
            | Except.error e => Except.error e
            | Except.ok (items2, cur, act, n) =>
              Except.ok (items2, cur, act, n + 1)
          | some _ =>
            Except.ok (items, next,
              StepAction.dispatched item.scene_name item.camera_name
                item.render_type, 0)

/-- RENDER_OT_render_queue_step.execute (lines 393 to 427).  On a
dispatch the source sets context.window.scene to the render scene,
assigns the scene camera and the output filepath, and invokes the
backend render operator; path joining is abstracted to string
concatenation (image jobs get scene_camera, animation jobs get the
directory scene_camera/). -/
def render_queue_step_execute (w : World) :
    Except String (OpResult × World) :=
  if w.st.is_paused then
    Except.ok ({ status := OpStatus.CANCELLED }, w)
  else
    match step_go w.scenes (w.queue.items.length + 1) w.queue.items
        (w.st.current_item_index + 1).toNat with
    | Except.error e => Except.error e
    | Except.ok (items1, cur, StepAction.queueExhausted, _) =>
      Except.ok ({ status := OpStatus.FINISHED },
        { w with
          queue := { w.queue with items := items1 },
          st := { w.st with current_item_index := cur,
                            is_rendering := false } })
    | Except.ok (items1, cur, StepAction.dispatched sname cname rtype, _) =>
      let filename := sname ++ "_" ++ cname
      let outpath :=
        match rtype with
        | RenderType.IMAGE => filename
        | RenderType.ANIMATION => filename ++ "/"
      let scenes1 := setScene w.scenes sname
        (fun sc => { sc with camera := some cname, filepath := outpath })
      Except.ok ({ status := OpStatus.FINISHED },
        { w with
          scenes := scenes1,
          window_scene := sname,
          queue := { w.queue with items := items1 },
          st := { w.st with current_item_index := cur } })

/-- render_cleanup (lines 208 to 240).  The timer removal and the three
membership-guarded handler removals are flag clears; the window scene
is restored first and the saved filepath is then written to the
restored window scene, but only when the saved value is truthy, so an
empty saved path is never written back.  The final assignment resets
render_state to its initial dictionary. -/
def render_cleanup (w : World) (cancelled : Bool) : World :=
  let window1 :=
    match w.st.original_scene with
    | some s => s
    | none => w.window_scene
  let scenes1 :=
    match w.st.original_path with
    | some p =>
      if p ≠ "" then
        setScene w.scenes window1 (fun sc => { sc with filepath := p })
      else w.scenes
    | none => w.scenes
  let idx := w.st.current_item_index
  let queue1 :=
    if cancelled then
      let items1 :=
        if 0 ≤ idx ∧ idx < (w.queue.items.length : Int) then
          listSet w.queue.items idx.toNat
            (fun it => { it with status := "Cancelled" })
        else w.queue.items
      { w.queue with items := items1, eta_display := "Render cancelled." }
    else
      { w.queue with eta_display := "Render queue complete." }
  { w with
    st := initial_render_state,
    scenes := scenes1,
    window_scene := window1,
    queue := queue1,
    handler_pre := false,
    handler_post := false,
    handler_cancel := false }

/-- RENDER_OT_render_queue_control.start_render (lines 266 to 290):
look up the next item, bail out with a warning when there is none,
otherwise snapshot the context, register the handlers and the timer,
and run one queue step.  context.window.scene always exists in
Blender; a world whose window scene is missing is reported as an
error. -/
def start_render (w : World) : Except String (OpResult × World) :=
  let next := get_next_render_item w.queue.items w.st.current_item_index
  if next = -1 then
    Except.ok ({ status := OpStatus.CANCELLED,
                 report := some "No enabled items in the queue to render." },
               w)
  else
    match lookupScene w.scenes w.window_scene with
    | none => Except.error "window scene unavailable"
    | some ws =>
      let st1 := { w.st with
        is_rendering := true,
        is_paused := false,
        current_item_index := next - 1,
        original_scene := some w.window_scene,
        original_path := some ws.filepath,
        frame_times := [],
        timer := true }
      let w1 := { w with
        st := st1,
        handler_pre := true,
        handler_post := true,
        handler_cancel := true }
      match render_queue_step_execute w1 with
      | Except.error e => Except.error e
      | Except.ok (_, w2) =>
        Except.ok ({ status := OpStatus.RUNNING_MODAL }, w2)

/-- RENDER_OT_render_queue_control.cancel_render (lines 292 to 296):
clears is_rendering and asks the backend to abort (the abort request
itself is external and has no direct effect on the modelled state). -/
def cancel_render (w : World) : OpResult × World :=
  ({ status := OpStatus.FINISHED },
   { w with st := { w.st with is_rendering := false } })

/-- RENDER_OT_render_queue_control.execute (lines 256 to 264). -/
def control_execute (action : String) (w : World) :
    Except String (OpResult × World) :=
  if action == "START" then
    if w.st.is_rendering then
      Except.ok ({ status := OpStatus.CANCELLED,
                   report := some "Render already in progress." }, w)
    else start_render w
  else if action == "CANCEL" then
    Except.ok (cancel_render w)
  else
    Except.ok ({ status := OpStatus.CANCELLED }, w)

/-- The modal loop notices is_rendering has been cleared and runs
render_cleanup with cancelled=True (lines 298 to 301); a user Cancel is
cancel_render followed by that modal pass. -/
def cancel_and_cleanup (w : World) : World :=
  render_cleanup (cancel_render w).2 true

/-- RENDER_OT_pause_resume_control.execute (lines 369 to 384): toggle
is_paused; on entering the paused state record the paused status on the
current item (with the explicit bounds check of the source); on leaving
it invoke the queue step. -/
def pause_resume_execute (w : World) : Except String World :=
  let st1 := { w.st with is_paused := ! w.st.is_paused }
  let w1 := { w with st := st1 }
  if st1.is_paused then
    let idx := st1.current_item_index
    let items1 :=
      if 0 ≤ idx ∧ idx < (w1.queue.items.length : Int) then
        listSet w1.queue.items idx.toNat
          (fun it => { it with status := "Paused" })
      else w1.queue.items
    Except.ok { w1 with queue := { w1.queue with
      items := items1,
      eta_display := "PAUSED. Press Resume to continue." } }
  else
    match render_queue_step_execute w1 with
    | Except.error e => Except.error e
    | Except.ok (_, w2) => Except.ok w2

/-- on_render_pre (lines 433 to 439): record the job start time and
mark the current item as rendering. -/
def on_render_pre (now : ℚ) (w : World) : Except String World :=
  let st1 := { w.st with job_start_time := now }
  let w1 := { w with st := st1 }
  if st1.current_item_index = -1 then
    Except.ok w1
  else
    match pySet w1.queue.items st1.current_item_index
        (fun it => { it with status := "Rendering..." }) with
    | Except.error e => Except.error e
    | Except.ok items1 =>
      Except.ok { w1 with queue := { w1.queue with items := items1 } }

/-- on_render_post (lines 441 to 459): append the elapsed duration to
frame_times, then, when the current item is a still image or the last
frame of its animation, mark it done and advance unless paused; a
paused mid-animation item is marked paused instead.  The scene argument
is the scene Blender hands to the handler. -/
def on_render_post (scene : Scene) (now : ℚ) (w : World) :
    Except String World :=
  let frame_duration := now - w.st.job_start_time
  let st1 := { w.st with frame_times := w.st.frame_times ++ [frame_duration] }
  let w1 := { w with st := st1 }
  let idx := st1.current_item_index
  if idx = -1 then
    Except.ok w1
  else
    match pyGet w1.queue.items idx with
    | Except.error e => Except.error e
    | Except.ok item =>
      if item.render_type = RenderType.IMAGE ∨
          (item.render_type = RenderType.ANIMATION ∧
            scene.frame_current = scene.frame_end) then
        match pySet w1.queue.items idx
            (fun it => { it with progress := 100, status := "Done" }) with
        | Except.error e => Except.error e
        | Except.ok items1 =>
          let w2 := { w1 with queue := { w1.queue with items := items1 } }
          if ! w2.st.is_paused then
            match render_queue_step_execute w2 with
            | Except.error e => Except.error e
            | Except.ok (_, w3) => Except.ok w3
          else
            Except.ok w2
      else if w1.st.is_paused then
        match pySet w1.queue.items idx
            (fun it => { it with status := "Paused" }) with
        | Except.error e => Except.error e
        | Except.ok items1 =>
          Except.ok { w1 with queue := { w1.queue with items := items1 } }
      else
        Except.ok w1

/-- on_render_cancel (lines 462 to 470): mark the current item
cancelled and, unless paused, advance to the next item. -/
def on_render_cancel (w : World) : Except String World :=
  let idx := w.st.current_item_index
  if idx = -1 then
    if ! w.st.is_paused then
      match render_queue_step_execute w with
      | Except.error e => Except.error e
      | Except.ok (_, w2) => Except.ok w2
    else
      Except.ok w
  else
    match pySet w.queue.items idx
        (fun it => { it with status := "Cancelled" }) with
    | Except.error e => Except.error e
    | Except.ok items1 =>
      let w1 := { w with queue := { w.queue with items := items1 } }
      if ! w1.st.is_paused then
        match render_queue_step_execute w1 with
        | Except.error e => Except.error e
        | Except.ok (_, w2) => Except.ok w2
      else
        Except.ok w1

/-- IntProperty progress is declared with min=0 and max=100; Blender
clamps assigned values into that range. -/
def clampProgress (p : Int) : Int := max 0 (min 100 p)

/-- Python int() on a rational: truncation toward zero. -/
def truncToInt (q : ℚ) : Int := if 0 ≤ q then ⌊q⌋ else ⌈q⌉

/-- Lines 334 to 335 of update_eta: the running average for a sequence
job is taken over every recorded sample in frame_times plus the live
elapsed time of the frame in progress (the appended list is never
empty, so the Python guard if all_times else 0 always takes the
division). -/
def seq_avg_time (frame_times : List ℚ) (live_frame_time : ℚ) : ℚ :=
  let all_times := frame_times ++ [live_frame_time]
  if all_times.length ≠ 0 then all_times.sum / (all_times.length : ℚ)
  else 0

/-- Lines 347 to 348 of update_eta: the running average for an image
job is taken over every recorded sample in frame_times, with the fixed
prior 30 when frame_times is empty. -/
def img_avg_time (frame_times : List ℚ) : ℚ :=
  if frame_times.length ≠ 0 then frame_times.sum / (frame_times.length : ℚ)
  else 30

/-- Lines 350 to 353 of update_eta: count the enabled image items from
the current index to the end of the queue. -/
def img_remaining_jobs (items : List RenderQueueItem) (idx : Nat) : Nat :=
  (items.drop idx).countP
    (fun it => it.enabled && decide (it.render_type = RenderType.IMAGE))

/-- Line 338 of update_eta: the remaining-time estimate of a sequence
job is the running average times the frames remaining in the job. -/
def seq_eta_seconds (frame_times : List ℚ) (live_frame_time : ℚ)
    (frames_remaining : Int) : ℚ :=
  seq_avg_time frame_times live_frame_time * (frames_remaining : ℚ)

/-- Line 355 of update_eta: the remaining-time estimate while an image
job runs is the running average times the number of enabled image jobs
from the current index onward. -/
def img_eta_seconds (frame_times : List ℚ) (remaining_jobs : Nat) : ℚ :=
  img_avg_time frame_times * (remaining_jobs : ℚ)

/-- RENDER_OT_render_queue_control.update_eta (lines 313 to 357),
invoked on every timer tick of the modal loop.  bpy.data.scenes[name]
raises KeyError when the scene is gone.  The timedelta and float
formatting of the display string is abstracted to toString of the
exact rationals. -/
def update_eta (now : ℚ) (w : World) : Except String World :=
  if ¬ w.st.is_rendering ∨ w.st.is_paused then Except.ok w
  else
    let idx := w.st.current_item_index
    if 0 ≤ idx ∧ idx < (w.queue.items.length : Int) then
      match pyGet w.queue.items idx with
      | Except.error e => Except.error e
      | Except.ok item =>
        match item.render_type with
        | RenderType.ANIMATION =>
          match lookupScene w.scenes item.scene_name with
          | none => Except.error "KeyError: scene not in bpy.data.scenes"
          | some render_scene =>
            let fstart := render_scene.frame_start
            let fend := render_scene.frame_end
            let fcur := render_scene.frame_current
            let total_frames := fend - fstart + 1
            let frames_done_in_job := fcur - fstart
            let live_frame_time := now - w.st.job_start_time
            let avg_time := seq_avg_time w.st.frame_times live_frame_time
            let frames_remaining := total_frames - frames_done_in_job
            let eta_seconds :=
              seq_eta_seconds w.st.frame_times live_frame_time
                frames_remaining
            let progress :=
              if 0 < total_frames then
                clampProgress (truncToInt
                  (((frames_done_in_job : ℚ) / (total_frames : ℚ)) * 100))
              else 0
            let status := "Frame " ++ toString fcur ++ "/" ++ toString fend
            match pySet w.queue.items idx
                (fun it => { it with progress := progress,
                                     status := status }) with
            | Except.error e => Except.error e
            | Except.ok items1 =>
              Except.ok { w with queue := { w.queue with
                items := items1,
                eta_display := "Job ETA: " ++ toString eta_seconds ++
                  " | Avg: " ++ toString avg_time ++ "s/frame" } }
        | RenderType.IMAGE =>
          let avg_time := img_avg_time w.st.frame_times
          let remaining_jobs := img_remaining_jobs w.queue.items idx.toNat
          let eta_seconds := img_eta_seconds w.st.frame_times remaining_jobs
          Except.ok { w with queue := { w.queue with
            eta_display := "Queue ETA: " ++ toString eta_seconds ++
              " | Avg: " ++ toString avg_time ++ "s/image" } }
    else
      Except.ok w

/-- RENDER_OT_refresh_queue.execute (lines 143 to 168): set the
refreshing flag, empty the queue (the remove loop runs until it hits
IndexError), set the loading message, clear frame_times, enumerate
every camera object of every scene, and register an application timer
that will run populate_queue_deferred with the name of the operating
scene and the enumerated list.  The registered deferred call is
returned alongside the operator result so a run of the model can feed
it to populate_queue_deferred. -/
def refresh_execute (w : World) :
    OpResult × World × (String × List (String × String)) :=
  let st1 := { w.st with is_refreshing := true, frame_times := [] }
  let q1 := { w.queue with items := [], eta_display := "Loading..." }
  let camera_list :=
    (w.scenes.map (fun sc =>
      (sc.objects.filter (fun o => o.obj_type == "CAMERA")).map
        (fun o => (sc.name, o.name)))).flatten
  ({ status := OpStatus.FINISHED, report := some "Queue refresh initiated." },
   { w with st := st1, queue := q1 },
   (w.window_scene, camera_list))

/-- populate_queue_deferred (lines 100 to 130): look up the scene by
name; when it is gone, report and clear the refreshing flag leaving
the queue untouched; otherwise append one pending item per enumerated
camera and set the loaded message.  The finally block clears the
refreshing flag on every exit path. -/
def populate_queue_deferred (scene_name : String)
    (camera_list : List (String × String)) (w : World) : World :=
  match lookupScene w.scenes scene_name with
  | none => { w with st := { w.st with is_refreshing := false } }
  | some _ =>
    let new_items := camera_list.map (fun ci =>
      ({ scene_name := ci.1, camera_name := ci.2,
         status := "Pending", progress := 0 } : RenderQueueItem))
    let items1 := w.queue.items ++ new_items
    { w with
      queue := { w.queue with
        items := items1,
        eta_display := toString items1.length ++
          " items loaded. Ready to render." },
      st := { w.st with is_refreshing := false } }

/-- The sequence-job average exactly as the specification words it: the
mean of the completed per-frame samples (samples recorded for sequence
frames only) together with the live elapsed time of the current frame.
Written from the spec for comparison with seq_avg_time, which the code
computes over every sample in frame_times whatever kind of job
produced it. -/
def spec_seq_avg_time (per_frame_samples : List ℚ) (live : ℚ) : ℚ :=
  ((per_frame_samples ++ [live]).sum) /
    (((per_frame_samples ++ [live]).length : ℚ))

/-- The image-job average exactly as the specification words it: the
mean of the completed image-job samples in the history, or the fixed
prior 30 when no image sample exists yet.  Written from the spec for
comparison with img_avg_time, which the code computes over every
sample in frame_times whatever kind of job produced it. -/
def spec_img_avg_time (image_samples : List ℚ) : ℚ :=
  if image_samples.length ≠ 0 then
    image_samples.sum / (image_samples.length : ℚ)
  else 30

/-! Concrete states used by the counterexamples and witnesses below. -/

/-- A scene with two cameras and a three-frame range. -/
def sceneS : Scene :=
  { name := "S",
    objects := [{ name := "Cam1", obj_type := "CAMERA" },
                { name := "Cam2", obj_type := "CAMERA" }],
    frame_start := 1, frame_end := 3, frame_current := 1,
    camera := none, filepath := "" }

/-- A mid-run state: two enabled image jobs in scene S, the one at
index 0 currently rendering. -/
def c1_world : World :=
  { st := { is_rendering := true, is_paused := false,
            is_refreshing := false, current_item_index := 0,
            original_scene := some "S", original_path := some "orig",
            timer := true, job_start_time := 0, frame_times := [] },
    scenes := [sceneS],
    window_scene := "S",
    queue := { items :=
      [{ scene_name := "S", camera_name := "Cam1", enabled := true,
         render_type := RenderType.IMAGE, progress := 0,
         status := "Rendering..." },
       { scene_name := "S", camera_name := "Cam2", enabled := true,
         render_type := RenderType.IMAGE, progress := 0,
         status := "Pending" }] },
    handler_pre := true, handler_post := true, handler_cancel := true }

/-- A running state whose only enabled queue entry names a scene that
is not in bpy.data.scenes. -/
def c2_world : World :=
  { st := { is_rendering := true, is_paused := false,
            current_item_index := -1, timer := true },
    scenes := [sceneS],
    window_scene := "S",
    queue := { items :=
      [{ scene_name := "Ghost", camera_name := "Cam1", enabled := true,
         render_type := RenderType.IMAGE }] },
    handler_pre := true, handler_post := true, handler_cancel := true }

/-- An idle state holding one queue entry, whose operating scene is no
longer in bpy.data.scenes when the deferred populate runs. -/
def c3_world : World :=
  { st := {},
    scenes := [],
    window_scene := "Main",
    queue := { items :=
      [{ scene_name := "Old", camera_name := "OldCam", enabled := true,
         render_type := RenderType.IMAGE, progress := 0,
         status := "Pending" }] } }

/-- A running state whose saved output path snapshot is the empty
string while the scene filepath has been redirected to the job output
path. -/
def c4_world : World :=
  { st := { is_rendering := true, is_paused := false,
            current_item_index := 0,
            original_scene := some "S", original_path := some "",
            timer := true },
    scenes := [{ sceneS with filepath := "S_Cam1" }],
    window_scene := "S",
    queue := { items :=
      [{ scene_name := "S", camera_name := "Cam1", enabled := true,
         render_type := RenderType.IMAGE, progress := 50,
         status := "Rendering..." }] },
    handler_pre := true, handler_post := true, handler_cancel := true }

/-- A running state with a nonempty saved output path, used to witness
the cancel and cleanup theorem. -/
def c4_wit_world : World :=
  { st := { is_rendering := true, is_paused := false,
            current_item_index := 0,
            original_scene := some "S", original_path := some "home",
            timer := true },
    scenes := [{ sceneS with filepath := "S_Cam1" }],
    window_scene := "S",
    queue := { items :=
      [{ scene_name := "S", camera_name := "Cam1", enabled := true,
         render_type := RenderType.IMAGE, progress := 50,
         status := "Rendering..." }] },
    handler_pre := true, handler_post := true, handler_cancel := true }

/-- A paused run whose only job, an image job, is still in flight at
the backend; the render then completes while the pause holds. -/
def c5_world : World :=
  { st := { is_rendering := true, is_paused := true,
            current_item_index := 0,
            original_scene := some "S", original_path := some "p",
            timer := true, job_start_time := 0, frame_times := [] },
    scenes := [sceneS],
    window_scene := "S",
    queue := { items :=
      [{ scene_name := "S", camera_name := "Cam1", enabled := true,
         render_type := RenderType.IMAGE, progress := 0,
         status := "Rendering..." }] },
    handler_pre := true, handler_post := true, handler_cancel := true }

/-- An idle state whose queue holds only a disabled entry. -/
def c6_world : World :=
  { st := {},
    scenes := [sceneS],
    window_scene := "S",
    queue := { items :=
      [{ scene_name := "S", camera_name := "Cam1", enabled := false,
         render_type := RenderType.IMAGE }] } }

/-- A small queue for the next-eligible witness: a disabled entry
followed by an enabled one. -/
def c7_items : List RenderQueueItem :=
  [{ scene_name := "S", camera_name := "Cam1", enabled := false },
   { scene_name := "S", camera_name := "Cam2", enabled := true }]

/-- A mixed-kind run mid-way: the image job at index 0 is rendering,
an animation job over the three-frame scene S follows. -/
def c8_trace_world : World :=
  { st := { is_rendering := true, is_paused := false,
            current_item_index := 0,
            original_scene := some "S", original_path := some "p",
            timer := true, job_start_time := 0, frame_times := [] },
    scenes := [sceneS],
    window_scene := "S",
    queue := { items :=
      [{ scene_name := "S", camera_name := "Cam1", enabled := true,
         render_type := RenderType.IMAGE, progress := 0,
         status := "Rendering..." },
       { scene_name := "S", camera_name := "Cam2", enabled := true,
         render_type := RenderType.ANIMATION, progress := 0,
         status := "Pending" }] },
    handler_pre := true, handler_post := true, handler_cancel := true }

/-- A scene spanning frames 1 to 100 whose frame 26 is being rendered,
so that 25 frames of the job are complete. -/
def sceneHundred : Scene :=
  { name := "H",
    objects := [{ name := "CamH", obj_type := "CAMERA" }],
    frame_start := 1, frame_end := 100, frame_current := 26,
    camera := some "CamH", filepath := "H_CamH/" }

/-- A running sequence job matching the numeric instance of the spec:
totalFrames 100, 25 frames completed, recorded durations 1, 1, 1, and
a live frame started one time-unit before the tick. -/
def c8_instance_world : World :=
  { st := { is_rendering := true, is_paused := false,
            current_item_index := 0,
            original_scene := some "H", original_path := some "p",
            timer := true, job_start_time := 0,
            frame_times := [1, 1, 1] },
    scenes := [sceneHundred],
    window_scene := "H",
    queue := { items :=
      [{ scene_name := "H", camera_name := "CamH", enabled := true,
         render_type := RenderType.ANIMATION, progress := 25,
         status := "Frame 26/100" }] },
    handler_pre := true, handler_post := true, handler_cancel := true }

/-- A one-frame animation scene, about to finish its only frame. -/
def sceneOne : Scene :=
  { name := "S",
    objects := [{ name := "Cam1", obj_type := "CAMERA" },
                { name := "Cam2", obj_type := "CAMERA" }],
    frame_start := 1, frame_end := 1, frame_current := 1,
    camera := none, filepath := "" }

/-- A mixed-kind run mid-way: the one-frame animation job at index 0
is rendering, an image job follows. -/
def c9_trace_world : World :=
  { st := { is_rendering := true, is_paused := false,
            current_item_index := 0,
            original_scene := some "S", original_path := some "p",
            timer := true, job_start_time := 0, frame_times := [] },
    scenes := [sceneOne],
    window_scene := "S",
    queue := { items :=
      [{ scene_name := "S", camera_name := "Cam1", enabled := true,
         render_type := RenderType.ANIMATION, progress := 0,
         status := "Rendering..." },
       { scene_name := "S", camera_name := "Cam2", enabled := true,
         render_type := RenderType.IMAGE, progress := 0,
         status := "Pending" }] },
    handler_pre := true, handler_post := true, handler_cancel := true }

/-- A running image job matching the numeric instance of the spec:
durationHistory 10, 20, 30 and two enabled image jobs from the current
index onward. -/
def c9_instance_world : World :=
  { st := { is_rendering := true, is_paused := false,
            current_item_index := 0,
            original_scene := some "S", original_path := some "p",
            timer := true, job_start_time := 0,
            frame_times := [10, 20, 30] },
    scenes := [sceneS],
    window_scene := "S",
    queue := { items :=
      [{ scene_name := "S", camera_name := "Cam1", enabled := true,
         render_type := RenderType.IMAGE, progress := 0,
         status := "Rendering..." },
       { scene_name := "S", camera_name := "Cam2", enabled := true,
         render_type := RenderType.IMAGE, progress := 0,
         status := "Pending" }] },
    handler_pre := true, handler_post := true, handler_cancel := true }

-- Equality of operator results and worlds is decidable, so concrete
-- runs of the model can be checked by evaluation.
deriving instance DecidableEq for Except

/-- The queue entry of c5_world as it stands after its render completes
under a pause and the run is then cancelled. -/
def c5_expected : RenderQueueItem :=
  { scene_name := "S", camera_name := "Cam1", enabled := true,
    render_type := RenderType.IMAGE, progress := 100,
    status := "Cancelled" }

/-! Lemmas about the next-eligible scan. -/

theorem enabledAt_nil (k : Nat) : enabledAt [] k = false := rfl

theorem enabledAt_cons_zero (it : RenderQueueItem)
    (l : List RenderQueueItem) : enabledAt (it :: l) 0 = it.enabled := rfl

theorem enabledAt_cons_succ (it : RenderQueueItem)
    (l : List RenderQueueItem) (k : Nat) :
    enabledAt (it :: l) (k + 1) = enabledAt l k := rfl

theorem go_spec (l : List RenderQueueItem) : ∀ i : Nat,
    (get_next_render_item_go l i = -1 ∧ ∀ k, enabledAt l k = false) ∨
    (∃ k : Nat, get_next_render_item_go l i = ((i + k : Nat) : Int) ∧
      enabledAt l k = true ∧ ∀ j, j < k → enabledAt l j = false) := by
  induction l with
  | nil =>
    intro i
    left
    exact ⟨rfl, fun k => rfl⟩
  | cons it rest ih =>
    intro i
    by_cases h : it.enabled
    · right
      refine ⟨0, ?_, ?_, ?_⟩
      · simp [get_next_render_item_go, h]
      · simpa [enabledAt_cons_zero] using h
      · intro j hj
        omega
    · have hh : it.enabled = false := by simpa using h
      rcases ih (i + 1) with ⟨h1, h2⟩ | ⟨k, h1, h2, h3⟩
      · left
        constructor
        · simp [get_next_render_item_go, hh, h1]
        · intro k
          cases k with
          | zero => simpa [enabledAt_cons_zero] using hh
          | succ k => simpa [enabledAt_cons_succ] using h2 k
      · right
        refine ⟨k + 1, ?_, ?_, ?_⟩
        · have harith : (i + 1) + k = i + (k + 1) := by omega
          rw [← harith]
          simp [get_next_render_item_go, hh, h1]
        · simpa [enabledAt_cons_succ] using h2
        · intro j hj
          cases j with
          | zero => simpa [enabledAt_cons_zero] using hh
          | succ j => simpa [enabledAt_cons_succ] using h3 j (by omega)

theorem enabledAt_drop (items : List RenderQueueItem) (start k : Nat) :
    enabledAt (items.drop start) k = enabledAt items (start + k) := by
  unfold enabledAt
  rw [List.get?_drop]

theorem gnf_main (items : List RenderQueueItem) (start : Nat) :
    (get_next_render_item_from items start = -1 ∧
      ∀ j, start ≤ j → enabledAt items j = false) ∨
    (∃ i : Nat, get_next_render_item_from items start = (i : Int) ∧
      start ≤ i ∧ i < items.length ∧ enabledAt items i = true ∧
      ∀ j, start ≤ j → j < i → enabledAt items j = false) := by
  rcases go_spec (items.drop start) start with ⟨h1, h2⟩ | ⟨k, h1, h2, h3⟩
  · left
    refine ⟨h1, ?_⟩
    intro j hj
    have := h2 (j - start)
    rwa [enabledAt_drop, Nat.add_sub_cancel' hj] at this
  · right
    have hk : k < (items.drop start).length := by
      by_contra hk
      have : (items.drop start).get? k = none := by
        rw [List.get?_eq_none]
        omega
      unfold enabledAt at h2
      rw [this] at h2
      simp at h2
    have hlen : start + k < items.length := by
      rw [List.length_drop] at hk
      omega
    refine ⟨start + k, h1, by omega, hlen, ?_, ?_⟩
    · rw [← enabledAt_drop]
      exact h2
    · intro j hj1 hj2
      have := h3 (j - start) (by omega)
      rwa [enabledAt_drop, Nat.add_sub_cancel' hj1] at this

theorem gnf_all_disabled (items : List RenderQueueItem)
    (h : ∀ it ∈ items, it.enabled = false) (start : Nat) :
    get_next_render_item_from items start = -1 := by
  rcases gnf_main items start with ⟨h1, _⟩ | ⟨i, _, _, _, hen, _⟩
  · exact h1
  · exfalso
    unfold enabledAt at hen
    rcases hget : items.get? i with _ | it
    · rw [hget] at hen
      simp at hen
    · rw [hget] at hen
      simp only [] at hen
      have := h it (List.get?_mem hget)
      simp [this] at hen

/-- Claim C7: for every queue and start index, the next-eligible scan
returns the smallest index at or after the start whose item is
enabled, and -1 (the none sentinel of the source) exactly when no
enabled item remains; in particular it never returns a disabled index,
and it is a pure function of the queue contents and the start index. -/
theorem C7_next_eligible_characterization (items : List RenderQueueItem)
    (start : Nat) :
    (get_next_render_item_from items start = -1 ∧
      ∀ j, start ≤ j → enabledAt items j = false) ∨
    (∃ i : Nat, get_next_render_item_from items start = (i : Int) ∧
      start ≤ i ∧ i < items.length ∧ enabledAt items i = true ∧
      ∀ j, start ≤ j → j < i → enabledAt items j = false) :=
  gnf_main items start

/-- Witness for C7: the characterization applied to the concrete queue
c7_items, a disabled entry followed by an enabled one, at start 0. -/
theorem C7_next_eligible_witness :
    (get_next_render_item_from c7_items 0 = -1 ∧
      ∀ j, 0 ≤ j → enabledAt c7_items j = false) ∨
    (∃ i : Nat, get_next_render_item_from c7_items 0 = (i : Int) ∧
      0 ≤ i ∧ i < c7_items.length ∧ enabledAt c7_items i = true ∧
      ∀ j, 0 ≤ j → j < i → enabledAt c7_items j = false) :=
  C7_next_eligible_characterization c7_items 0


/-! Lemmas about the queue step recursion. -/

theorem step_go_spec (scenes : List Scene) :
    ∀ (fuel : Nat) (items : List RenderQueueItem) (start : Nat),
    match step_go scenes fuel items start with
    | Except.error _ => True
    | Except.ok (items1, cur, _, n) =>
        n ≤ items.length - start ∧
        items1.length = items.length ∧
        (cur = -1 ∨ ((start : Int) ≤ cur ∧ cur < (items.length : Int))) ∧
        ∀ j, j < start → items1.get? j = items.get? j := by
  intro fuel
  induction fuel with
  | zero =>
    intro items start
    simp [step_go]
  | succ fuel ih =>
    intro items start
    rcases gnf_main items start with ⟨h1, _⟩ | ⟨i, h1, hge, hlt, _, _⟩
    · simp [step_go, h1]
    · have hne : ((i : Nat) : Int) ≠ -1 := by omega
      rcases hgi : items[i]? with _ | item
      · simp [step_go, h1, hne, hgi]
      · rcases hsc : lookupScene scenes item.scene_name with _ | rsc
        · simp [step_go, h1, hne, hgi, hsc]
        · rcases hcam : lookupObject rsc.objects item.camera_name
            with _ | cam
          · have IH := ih
              (items.set i { item with status := "Error: Not found" })
              (i + 1)
            rcases hr : step_go scenes fuel
                (items.set i { item with status := "Error: Not found" })
                (i + 1) with e | ⟨items2, cur, act, n⟩
            · simp [step_go, h1, hne, hgi, hsc, hcam, hr]
            · rw [hr] at IH
              obtain ⟨IH1, IH2, IH3, IH4⟩ := IH
              rw [List.length_set] at IH1 IH2
              simp [step_go, h1, hne, hgi, hsc, hcam, hr,
                List.get?_eq_getElem?]
              simp only [List.get?_eq_getElem?] at IH4
              refine ⟨by omega, IH2, ?_, ?_⟩
              · rcases IH3 with h3 | ⟨h3a, h3b⟩
                · exact Or.inl h3
                · refine Or.inr ⟨by omega, ?_⟩
                  rw [List.length_set] at h3b
                  exact h3b
              · intro j hj
                rw [IH4 j (by omega)]
                rw [List.getElem?_set_ne (by omega)]
          · simp [step_go, h1, hne, hgi, hsc, hcam]
            omega

theorem step_go_enough_fuel (scenes : List Scene) :
    ∀ (fuel : Nat) (items : List RenderQueueItem) (start : Nat),
    items.length - start < fuel →
    step_go scenes fuel items start ≠
      Except.error "unreachable: fuel exhausted" := by
  intro fuel
  induction fuel with
  | zero =>
    intro items start h
    exact absurd h (Nat.not_lt_zero _)
  | succ fuel ih =>
    intro items start h
    rcases gnf_main items start with ⟨h1, _⟩ | ⟨i, h1, hge, hlt, _, _⟩
    · simp [step_go, h1]
    · have hne : ((i : Nat) : Int) ≠ -1 := by omega
      rcases hgi : items[i]? with _ | item
      · simp [step_go, h1, hne, hgi]
      · rcases hsc : lookupScene scenes item.scene_name with _ | rsc
        · simp [step_go, h1, hne, hgi, hsc]
        · rcases hcam : lookupObject rsc.objects item.camera_name
            with _ | cam
          · have hrec := ih
              (items.set i { item with status := "Error: Not found" })
              (i + 1)
              (by rw [List.length_set]; omega)
            rcases hr : step_go scenes fuel
                (items.set i { item with status := "Error: Not found" })
                (i + 1) with e | ⟨items2, cur, act, n⟩
            · rw [hr] at hrec
              simp [step_go, h1, hne, hgi, hsc, hcam, hr]
              intro he
              rw [he] at hrec
              exact hrec rfl
            · simp [step_go, h1, hne, hgi, hsc, hcam, hr]
          · simp [step_go, h1, hne, hgi, hsc, hcam]

/-- Claim C10: the recursive self-invocation of the queue step
terminates after at most queue-length recursive calls.  The recursion
is realised with fuel; with any fuel exceeding the number of items
left to scan (every caller passes the queue length plus one) the
fuel-exhausted branch is unreachable, the number of recursive
self-invocations is at most the queue length, and the final
current_item_index is -1 or at least the scan start, since each
recursive call scans strictly past the index it just marked. -/
theorem C10_step_recursion_terminates (scenes : List Scene)
    (items : List RenderQueueItem) (start : Nat) (fuel : Nat)
    (hfuel : items.length - start < fuel) :
    step_go scenes fuel items start ≠
      Except.error "unreachable: fuel exhausted" ∧
    (match step_go scenes fuel items start with
     | Except.error _ => True
     | Except.ok (_, cur, _, n) =>
        n ≤ items.length ∧ (cur = -1 ∨ (start : Int) ≤ cur)) := by
  constructor
  · exact step_go_enough_fuel scenes fuel items start hfuel
  · have h := step_go_spec scenes fuel items start
    rcases hr : step_go scenes fuel items start with e | ⟨items1, cur, act, n⟩
    · simp
    · rw [hr] at h
      obtain ⟨h1, _, h3, _⟩ := h
      refine ⟨by omega, ?_⟩
      rcases h3 with h3 | ⟨h3, _⟩
      · exact Or.inl h3
      · exact Or.inr h3

/-- Witness for C10: the bound applied to a concrete queue of two
items with fuel 3. -/
theorem C10_step_recursion_terminates_witness :
    c7_items.length - 0 < 3 ∧
    (step_go [sceneS] 3 c7_items 0 ≠
        Except.error "unreachable: fuel exhausted" ∧
      (match step_go [sceneS] 3 c7_items 0 with
       | Except.error _ => True
       | Except.ok (_, cur, _, n) =>
          n ≤ c7_items.length ∧ (cur = -1 ∨ (0 : Int) ≤ cur))) :=
  ⟨by decide, C10_step_recursion_terminates [sceneS] c7_items 0 3 (by decide)⟩

/-! Lemmas about the step operator wrapper. -/

theorem step_execute_advances (w : World) (h : w.st.is_paused = false) :
    match render_queue_step_execute w with
    | Except.ok (_, w2) =>
        w2.st.current_item_index = -1 ∨
          w.st.current_item_index < w2.st.current_item_index
    | Except.error _ => True := by
  unfold render_queue_step_execute
  have hs := step_go_spec w.scenes (w.queue.items.length + 1) w.queue.items
    (w.st.current_item_index + 1).toNat
  rcases hr : step_go w.scenes (w.queue.items.length + 1) w.queue.items
      (w.st.current_item_index + 1).toNat with e | ⟨items1, cur, act, n⟩
  · simp [h, hr]
  · rw [hr] at hs
    obtain ⟨_, _, hcur, _⟩ := hs
    have htn : w.st.current_item_index + 1 ≤
        ((w.st.current_item_index + 1).toNat : Int) :=
      Int.self_le_toNat _
    rcases hcur with h3 | ⟨h3, _⟩
    · cases act <;> simp [h, hr, h3]
    · cases act <;> simp [h, hr] <;> omega

theorem step_execute_preserves_below (w : World) (j : Nat)
    (hj : j < (w.st.current_item_index + 1).toNat) :
    match render_queue_step_execute w with
    | Except.ok (_, w2) => w2.queue.items.get? j = w.queue.items.get? j
    | Except.error _ => True := by
  unfold render_queue_step_execute
  by_cases hp : w.st.is_paused
  · simp [hp]
  · have hs := step_go_spec w.scenes (w.queue.items.length + 1) w.queue.items
      (w.st.current_item_index + 1).toNat
    rcases hr : step_go w.scenes (w.queue.items.length + 1) w.queue.items
        (w.st.current_item_index + 1).toNat with e | ⟨items1, cur, act, n⟩
    · simp [hp, hr]
    · rw [hr] at hs
      obtain ⟨_, _, _, hpres⟩ := hs
      cases act <;> simp [hp, hr] <;>
        simpa [List.get?_eq_getElem?] using hpres j hj

/-! Lemmas about pause and resume. -/

theorem pause_resume_toggle_paused (w : World)
    (h : w.st.is_paused = false) :
    ∃ w1 : World, pause_resume_execute w = Except.ok w1 ∧
      w1.st.is_paused = true ∧
      w1.st.current_item_index = w.st.current_item_index := by
  unfold pause_resume_execute
  simp [h]

theorem pause_resume_unpause_step (w1 : World)
    (h : w1.st.is_paused = true) :
    pause_resume_execute w1 =
      (match render_queue_step_execute
          { w1 with st := { w1.st with is_paused := false } } with
       | Except.error e => Except.error e
       | Except.ok (_, w2) => Except.ok w2) := by
  unfold pause_resume_execute
  simp [h]

/-- Claim C1 (amended): Pause immediately followed by Resume does not
continue the job that was current at the Pause.  Resume re-invokes the
queue step, whose scan starts one past current_item_index, so after
the pair of calls the scheduler either ended the run
(current_item_index = -1) or moved to an index strictly greater than
the one current at the Pause; the paused job is never re-issued. -/
theorem C1_pause_then_resume_skips (w : World)
    (h : w.st.is_paused = false) :
    match (pause_resume_execute w).bind pause_resume_execute with
    | Except.ok r =>
        r.st.current_item_index = -1 ∨
          w.st.current_item_index < r.st.current_item_index
    | Except.error _ => True := by
  obtain ⟨w1, he, hp1, hc1⟩ := pause_resume_toggle_paused w h
  rw [he]
  simp only [Except.bind]
  rw [pause_resume_unpause_step w1 hp1]
  have hadv := step_execute_advances
    { w1 with st := { w1.st with is_paused := false } } rfl
  rcases hr : render_queue_step_execute
      { w1 with st := { w1.st with is_paused := false } }
      with e | ⟨res, w3⟩
  · simp [hr]
  · rw [hr] at hadv
    simp only [hr]
    have hcur : ({ w1 with st := { w1.st with is_paused := false } } :
        World).st.current_item_index = w.st.current_item_index := by
      simp [hc1]
    rw [hcur] at hadv
    exact hadv

/-- Counterexample for C1 as stated: in c1_world the job at index 0 is
current and in progress; Pause immediately followed by Resume leaves
current_item_index = 1, not 0, and the job at index 0 is abandoned
with status Paused — the claim that the same currentIndex resumes and
no job is skipped is false on this state. -/
theorem C1_counterexample :
    c1_world.st.current_item_index = 0 ∧
    (Except.map (fun r => r.st.current_item_index)
      ((pause_resume_execute c1_world).bind pause_resume_execute)) =
      Except.ok 1 ∧
    (Except.map (fun r => (r.queue.items.get? 0).map (fun it => it.status))
      ((pause_resume_execute c1_world).bind pause_resume_execute)) =
      Except.ok (some "Paused") ∧
    (1 : Int) ≠ 0 :=
  ⟨rfl, by decide, by decide, by decide⟩

/-- Witness for the amended C1 at the concrete state c1_world. -/
theorem C1_pause_then_resume_skips_witness :
    c1_world.st.is_paused = false ∧
    (match (pause_resume_execute c1_world).bind pause_resume_execute with
     | Except.ok r =>
        r.st.current_item_index = -1 ∨
          c1_world.st.current_item_index < r.st.current_item_index
     | Except.error _ => True) :=
  ⟨rfl, C1_pause_then_resume_skips c1_world rfl⟩

/-- Claim C2 is a code bug: in c2_world the next eligible job names the
scene Ghost, which bpy.data.scenes does not contain; because the
source evaluates render_scene.objects.get(item.camera_name) before the
combined if not render_scene or not camera check, the scene resolution
failure raises AttributeError out of the queue step instead of marking
the job Error and advancing — the guard on line 408 is dead for the
missing-scene half. -/
theorem C2_scene_resolution_raises :
    (Except.map (fun it => it.scene_name)
      (pyGet c2_world.queue.items 0)) = Except.ok "Ghost" ∧
    lookupScene c2_world.scenes "Ghost" = none ∧
    render_queue_step_execute c2_world =
      Except.error
        "AttributeError: NoneType object has no attribute objects" :=
  ⟨by decide, by decide, by decide⟩

/-- Claim C6: with every queue entry disabled (in particular with an
empty queue) and no render in progress, issuing START reports that no
enabled items are in the queue, returns CANCELLED, and leaves the
whole world — scheduler state and queue alike — unchanged. -/
theorem C6_start_empty_queue (w : World)
    (hdis : ∀ it ∈ w.queue.items, it.enabled = false)
    (hidle : w.st.is_rendering = false) :
    control_execute "START" w =
      Except.ok ({ status := OpStatus.CANCELLED,
                   report := some
                     "No enabled items in the queue to render." }, w) := by
  unfold control_execute start_render get_next_render_item
  rw [gnf_all_disabled w.queue.items hdis]
  simp [hidle]

/-- Witness for C6 at the concrete idle world c6_world whose single
queue entry is disabled. -/
theorem C6_start_empty_queue_witness :
    (∀ it ∈ c6_world.queue.items, it.enabled = false) ∧
    c6_world.st.is_rendering = false ∧
    control_execute "START" c6_world =
      Except.ok ({ status := OpStatus.CANCELLED,
                   report := some
                     "No enabled items in the queue to render." },
        c6_world) :=
  ⟨by decide, rfl, C6_start_empty_queue c6_world (by decide) rfl⟩

/-- Claim C3 (amended): the execute phase of Refresh empties the queue
before enumeration, so a failing populate leaves the queue cleared —
not restored to its pre-Refresh contents; when the deferred populate
cannot find its scene it changes nothing else, and the refreshing flag
is cleared on every exit path of the deferred populate. -/
theorem C3_refresh_clears_and_unlocks (w v : World) (s : String)
    (cl : List (String × String)) :
    ((refresh_execute w).2.1).queue.items = [] ∧
    ((refresh_execute w).2.1).st.is_refreshing = true ∧
    (populate_queue_deferred s cl v).st.is_refreshing = false ∧
    (lookupScene v.scenes s = none →
      (populate_queue_deferred s cl v).queue = v.queue) := by
  refine ⟨rfl, rfl, ?_, ?_⟩
  · unfold populate_queue_deferred
    cases hls : lookupScene v.scenes s <;> simp [hls]
  · intro hnone
    unfold populate_queue_deferred
    simp [hnone]

/-- Counterexample for C3 as stated: c3_world holds one queue entry
and its operating scene Main is gone by the time the deferred populate
runs; the refresh pair fails, yet the queue ends empty rather than
unchanged — only the busy-flag half of the claim holds. -/
theorem C3_counterexample :
    c3_world.queue.items ≠ [] ∧
    lookupScene ((refresh_execute c3_world).2.1).scenes
      (refresh_execute c3_world).2.2.1 = none ∧
    (populate_queue_deferred (refresh_execute c3_world).2.2.1
      (refresh_execute c3_world).2.2.2
      (refresh_execute c3_world).2.1).queue.items = [] ∧
    (populate_queue_deferred (refresh_execute c3_world).2.2.1
      (refresh_execute c3_world).2.2.2
      (refresh_execute c3_world).2.1).st.is_refreshing = false :=
  ⟨by decide, by decide, by decide, by decide⟩

/-- Witness for the amended C3 at the concrete state c3_world, with
the deferred populate hypothesis discharged. -/
theorem C3_refresh_clears_and_unlocks_witness :
    ((refresh_execute c3_world).2.1).queue.items = [] ∧
    lookupScene ((refresh_execute c3_world).2.1).scenes "Main" = none ∧
    (populate_queue_deferred "Main" [] (refresh_execute c3_world).2.1).queue
      = ((refresh_execute c3_world).2.1).queue ∧
    (populate_queue_deferred "Main" []
      (refresh_execute c3_world).2.1).st.is_refreshing = false :=
  ⟨(C3_refresh_clears_and_unlocks c3_world (refresh_execute c3_world).2.1
      "Main" []).1,
   by decide,
   (C3_refresh_clears_and_unlocks c3_world (refresh_execute c3_world).2.1
      "Main" []).2.2.2 (by decide),
   (C3_refresh_clears_and_unlocks c3_world (refresh_execute c3_world).2.1
      "Main" []).2.2.1⟩

/-! Lemmas about cleanup. -/

theorem lookupScene_setScene (ss : List Scene) (n : String)
    (f : Scene → Scene) (hf : ∀ sc, (f sc).name = sc.name) :
    lookupScene (setScene ss n f) n = Option.map f (lookupScene ss n) := by
  induction ss with
  | nil => rfl
  | cons a tl ih =>
    show lookupScene
        ((if (a.name == n) = true then f a else a) :: setScene tl n f) n =
      Option.map f (lookupScene (a :: tl) n)
    by_cases ha : (a.name == n) = true
    · rw [if_pos ha]
      unfold lookupScene
      rw [List.find?_cons, List.find?_cons]
      have hfa : ((f a).name == n) = true := by rw [hf a]; exact ha
      simp [hfa, ha]
    · rw [if_neg ha]
      unfold lookupScene
      rw [List.find?_cons, List.find?_cons]
      simp only [Bool.not_eq_true] at ha
      simp only [ha]
      exact ih

theorem render_cleanup_st (w : World) (c : Bool) :
    (render_cleanup w c).st = initial_render_state := rfl

theorem render_cleanup_eta (w : World) (c : Bool) :
    (render_cleanup w c).queue.eta_display =
      if c then "Render cancelled." else "Render queue complete." := by
  unfold render_cleanup
  cases c <;> simp

theorem render_cleanup_fixed (w : World) (c : Bool)
    (h1 : w.st = initial_render_state)
    (h2 : w.queue.eta_display =
      if c then "Render cancelled." else "Render queue complete.")
    (h3 : w.handler_pre = false) (h4 : w.handler_post = false)
    (h5 : w.handler_cancel = false) :
    render_cleanup w c = w := by
  obtain ⟨st, scenes, ws, q, b1, b2, b3⟩ := w
  obtain ⟨items, ai, eta⟩ := q
  dsimp only at h1 h2 h3 h4 h5
  subst h1 h3 h4 h5
  unfold render_cleanup
  cases c <;> simp_all [initial_render_state]

theorem render_cleanup_idem (w : World) (c : Bool) :
    render_cleanup (render_cleanup w c) c = render_cleanup w c :=
  render_cleanup_fixed (render_cleanup w c) c rfl
    (render_cleanup_eta w c) rfl rfl rfl

theorem render_cleanup_restores (w : World) (s p : String)
    (hs : w.st.original_scene = some s)
    (hp : w.st.original_path = some p) (hpne : p ≠ "") :
    (render_cleanup w true).window_scene = s ∧
    (render_cleanup w true).scenes =
      setScene w.scenes s (fun sc => { sc with filepath := p }) := by
  unfold render_cleanup
  simp [hs, hp, hpne]

/-- Claim C4 (amended): a user Cancel — cancel_render followed by the
modal pass that runs render_cleanup — always reaches the Idle reset of
render_state with the timer gone and all three handlers removed, and
restores the saved scene; the saved output path is restored only when
it is non-empty, because the source guards the restore with the
truthiness of the saved string.  Cleanup is idempotent from any state,
for both the cancelled and the completed variant. -/
theorem C4_cancel_cleanup (w : World) (s p : String)
    (hs : w.st.original_scene = some s)
    (hp : w.st.original_path = some p)
    (hpne : p ≠ "")
    (hfound : (lookupScene w.scenes s).isSome = true) :
    (cancel_and_cleanup w).st = initial_render_state ∧
    (cancel_and_cleanup w).handler_pre = false ∧
    (cancel_and_cleanup w).handler_post = false ∧
    (cancel_and_cleanup w).handler_cancel = false ∧
    (cancel_and_cleanup w).window_scene = s ∧
    Option.map (fun sc => sc.filepath)
      (lookupScene (cancel_and_cleanup w).scenes s) = some p ∧
    render_cleanup (render_cleanup w true) true = render_cleanup w true ∧
    render_cleanup (render_cleanup w false) false =
      render_cleanup w false := by
  have hres := render_cleanup_restores (cancel_render w).2 s p hs hp hpne
  refine ⟨rfl, rfl, rfl, rfl, hres.1, ?_,
    render_cleanup_idem w true, render_cleanup_idem w false⟩
  show Option.map (fun sc => sc.filepath)
    (lookupScene (render_cleanup (cancel_render w).2 true).scenes s) = some p
  rw [hres.2]
  have hsc : setScene (cancel_render w).2.scenes s
      (fun sc => { sc with filepath := p }) =
      setScene w.scenes s (fun sc => { sc with filepath := p }) := rfl
  rw [hsc, lookupScene_setScene w.scenes s
    (fun sc => { sc with filepath := p }) (fun sc => rfl)]
  obtain ⟨sc, hscene⟩ := Option.isSome_iff_exists.mp hfound
  rw [hscene]
  rfl

/-- Counterexample for C4 as stated: in c4_world the saved output path
snapshot is the empty string and the scene filepath currently holds
the job output path; Cancel reaches Idle but the filepath stays at the
job path instead of the saved empty string, so savedContext is not
fully restored. -/
theorem C4_counterexample :
    c4_world.st.original_path = some "" ∧
    (cancel_and_cleanup c4_world).st = initial_render_state ∧
    Option.map (fun sc => sc.filepath)
      (lookupScene (cancel_and_cleanup c4_world).scenes "S") =
      some "S_Cam1" ∧
    "S_Cam1" ≠ "" :=
  ⟨rfl, rfl, by decide, by decide⟩

/-- Witness for the amended C4 at the concrete running world
c4_wit_world, whose saved output path home is non-empty. -/
theorem C4_cancel_cleanup_witness :
    c4_wit_world.st.original_scene = some "S" ∧
    c4_wit_world.st.original_path = some "home" ∧
    "home" ≠ "" ∧
    (lookupScene c4_wit_world.scenes "S").isSome = true ∧
    ((cancel_and_cleanup c4_wit_world).st = initial_render_state ∧
     (cancel_and_cleanup c4_wit_world).handler_pre = false ∧
     (cancel_and_cleanup c4_wit_world).handler_post = false ∧
     (cancel_and_cleanup c4_wit_world).handler_cancel = false ∧
     (cancel_and_cleanup c4_wit_world).window_scene = "S" ∧
     Option.map (fun sc => sc.filepath)
       (lookupScene (cancel_and_cleanup c4_wit_world).scenes "S") =
       some "home" ∧
     render_cleanup (render_cleanup c4_wit_world true) true =
       render_cleanup c4_wit_world true ∧
     render_cleanup (render_cleanup c4_wit_world false) false =
       render_cleanup c4_wit_world false) :=
  ⟨rfl, rfl, by decide, by decide,
   C4_cancel_cleanup c4_wit_world "S" "home" rfl rfl (by decide) (by decide)⟩

/-! Lemmas about Python indexing at a nonnegative index. -/

theorem pyGet_natCast {α : Type} (l : List α) (i : Nat) (a : α)
    (h : l.get? i = some a) : pyGet l (i : Int) = Except.ok a := by
  have hlt : i < l.length := by
    by_contra hc
    rw [List.get?_eq_none.mpr (by omega)] at h
    exact Option.noConfusion h
  unfold pyGet pyIndex
  simp [hlt, h]
  have hg : l[i]? = some a := by simpa using h
  rw [List.getElem?_eq_getElem hlt] at hg
  exact Option.some.inj hg

theorem pySet_natCast {α : Type} (l : List α) (i : Nat) (f : α → α)
    (a : α) (h : l.get? i = some a) :
    pySet l (i : Int) f = Except.ok (l.set i (f a)) := by
  have hlt : i < l.length := by
    by_contra hc
    rw [List.get?_eq_none.mpr (by omega)] at h
    exact Option.noConfusion h
  unfold pySet pyIndex
  simp [hlt, h]
  have hg : l[i]? = some a := by simpa using h
  rw [List.getElem?_eq_getElem hlt] at hg
  rw [Option.some.inj hg]

theorem post_step_case (w2 : World) (i : Nat)
    (fitem : RenderQueueItem)
    (hcur : w2.st.current_item_index = (i : Int))
    (hget : w2.queue.items.get? i = some fitem) :
    match (match render_queue_step_execute w2 with
           | Except.error e => Except.error e
           | Except.ok (_, w3) => Except.ok w3) with
    | Except.ok w4 => w4.queue.items.get? i = some fitem
    | Except.error _ => True := by
  have hj : i < (w2.st.current_item_index + 1).toNat := by
    rw [hcur]
    omega
  have hpres := step_execute_preserves_below w2 i hj
  rcases hr : render_queue_step_execute w2 with e | ⟨res, w3⟩
  · simp [hr]
  · rw [hr] at hpres
    simp only [hr]
    rw [hpres, hget]

/-- Claim C5 (amended): on_render_post does establish the forward
direction at the finished job — when the current item is an image job
or the last frame of its sequence just completed, the item ends with
progress 100 and status Done, whether or not the run then advances.
The biconditional of the claim is not an invariant of every operation:
see the counterexample, where cleanup after a cancel leaves a job with
progress 100 and status Cancelled. -/
theorem C5_post_marks_done (scene : Scene) (now : ℚ) (w : World)
    (i : Nat) (item : RenderQueueItem)
    (hc : w.st.current_item_index = (i : Int))
    (hit : w.queue.items.get? i = some item)
    (hdone : item.render_type = RenderType.IMAGE ∨
      (item.render_type = RenderType.ANIMATION ∧
        scene.frame_current = scene.frame_end)) :
    match on_render_post scene now w with
    | Except.ok w2 => w2.queue.items.get? i =
        some { item with progress := 100, status := "Done" }
    | Except.error _ => True := by
  have hlt : i < w.queue.items.length := by
    by_contra hcon
    rw [List.get?_eq_none.mpr (by omega)] at hit
    exact Option.noConfusion hit
  have hne : ((i : Nat) : Int) ≠ -1 := by omega
  have hg := pyGet_natCast w.queue.items i item hit
  have hs := pySet_natCast w.queue.items i
    (fun it => { it with progress := 100, status := "Done" }) item hit
  unfold on_render_post
  simp only [hc, hne, if_neg, hg, hs, if_pos hdone, if_false]
  by_cases hp : w.st.is_paused
  · simp only [hp, Bool.not_true, Bool.false_eq_true, if_false]
    exact List.get?_set_eq_of_lt _ hlt
  · simp only [hp, Bool.not_false, if_true]
    exact post_step_case _ i _ rfl (List.get?_set_eq_of_lt _ hlt)

/-- Counterexample for C5 as stated: starting from c5_world, a paused
run whose image job is still rendering, the backend completion event
marks the job Done with progress 100 (and, being paused, does not
advance); the user then cancels, and render_cleanup sets the status of
the current item to Cancelled without touching its progress — leaving
progress = 100 with status different from Done, so the biconditional
does not hold after every operation. -/
theorem C5_counterexample :
    (Except.map (fun w1 => (cancel_and_cleanup w1).queue.items.get? 0)
      (on_render_post sceneS 5 c5_world)) =
      Except.ok (some c5_expected) ∧
    c5_expected.progress = 100 ∧
    c5_expected.status = "Cancelled" ∧
    "Cancelled" ≠ "Done" :=
  ⟨by decide, rfl, rfl, by decide⟩

/-- Witness for the amended C5: the completion handler applied to the
paused world c5_world, whose current item at index 0 is an image job. -/
theorem C5_post_marks_done_witness :
    c5_world.st.current_item_index = ((0 : Nat) : Int) ∧
    c5_world.queue.items.get? 0 = some
      { scene_name := "S", camera_name := "Cam1", enabled := true,
        render_type := RenderType.IMAGE, progress := 0,
        status := "Rendering..." } ∧
    (match on_render_post sceneS 5 c5_world with
     | Except.ok w2 => w2.queue.items.get? 0 =
        some { scene_name := "S", camera_name := "Cam1", enabled := true,
               render_type := RenderType.IMAGE, progress := 100,
               status := "Done" }
     | Except.error _ => True) :=
  ⟨rfl, rfl,
   C5_post_marks_done sceneS 5 c5_world 0
     { scene_name := "S", camera_name := "Cam1", enabled := true,
       render_type := RenderType.IMAGE, progress := 0,
       status := "Rendering..." }
     rfl rfl (Or.inl rfl)⟩

/-- Claim C8 (amended): the sequence-job estimator averages every
sample in frame_times — whatever kind of job recorded it — together
with the live elapsed time of the current frame: the average is
(sum of samples + live) / (sample count + 1), and the remaining
estimate is that average times the frames remaining in the current
job.  The numeric instance of the claim holds: with recorded durations
1, 1, 1, a live elapsed time of 1, totalFrames 100 and 25 frames
complete, the average is 1 and the remaining estimate is
1 times 75 = 75. -/
theorem C8_sequence_eta (ft : List ℚ) (live : ℚ) (rem : Int) :
    seq_avg_time ft live = (ft.sum + live) / ((ft.length : ℚ) + 1) ∧
    seq_eta_seconds ft live rem = seq_avg_time ft live * (rem : ℚ) ∧
    seq_avg_time [1, 1, 1] 1 = 1 ∧
    seq_eta_seconds [1, 1, 1] 1 (100 - 25) = 75 := by
  refine ⟨?_, rfl, by norm_num [seq_avg_time],
    by norm_num [seq_eta_seconds, seq_avg_time]⟩
  unfold seq_avg_time
  simp

/-- Counterexample for C8 as stated: in the mixed run c8_trace_world
the image job at index 0 completes with duration 10, the step then
dispatches the animation job at index 1, and a later tick sees a live
elapsed time of 2.  The only entry of durationHistory is an image-job
sample, not a completed per-frame sample, yet the code averages it in:
the code average is (10 + 2) / 2 = 6 while the claim — the mean of the
completed per-frame samples (there are none) with the live time —
mandates 2. -/
theorem C8_counterexample :
    (Except.map (fun r => (r.queue.items.get? 0).map
        (fun it => it.render_type))
      ((on_render_post sceneS 10 c8_trace_world).bind (on_render_pre 12)))
      = Except.ok (some RenderType.IMAGE) ∧
    (Except.map (fun r => (r.queue.items.get? 1).map
        (fun it => it.render_type))
      ((on_render_post sceneS 10 c8_trace_world).bind (on_render_pre 12)))
      = Except.ok (some RenderType.ANIMATION) ∧
    (Except.map (fun r => r.st.current_item_index)
      ((on_render_post sceneS 10 c8_trace_world).bind (on_render_pre 12)))
      = Except.ok 1 ∧
    (Except.map (fun r => r.st.frame_times)
      ((on_render_post sceneS 10 c8_trace_world).bind (on_render_pre 12)))
      = Except.ok [10] ∧
    seq_avg_time [10] ((14 : ℚ) - 12) = 6 ∧
    spec_seq_avg_time [] ((14 : ℚ) - 12) = 2 ∧
    (6 : ℚ) ≠ 2 := by
  refine ⟨by decide, by decide, by decide, ?_, ?_, ?_, ?_⟩
  · simp [on_render_post, on_render_pre, c8_trace_world, sceneS,
      render_queue_step_execute, step_go, get_next_render_item_from,
      get_next_render_item_go, pyGet, pySet, pyIndex, lookupScene,
      lookupObject, setScene, Except.bind, Except.map]
  · norm_num [seq_avg_time]
  · norm_num [spec_seq_avg_time]
  · norm_num

/-- Claim C9 (amended): the image-job estimator averages every sample
in frame_times — whatever kind of job recorded it — falling back to
the fixed prior 30 only when frame_times is empty, and multiplies by
the count of enabled image jobs from the current index onward
(regardless of their status).  The numeric instance of the claim
holds: with history 10, 20, 30 and two such jobs remaining the average
is 20 and the estimate 40. -/
theorem C9_image_eta (ft : List ℚ) (hft : ft ≠ []) :
    img_avg_time ft = ft.sum / (ft.length : ℚ) ∧
    img_avg_time [] = 30 ∧
    (∀ k : Nat, img_eta_seconds ft k = img_avg_time ft * (k : ℚ)) ∧
    img_avg_time [10, 20, 30] = 20 ∧
    img_remaining_jobs c9_instance_world.queue.items 0 = 2 ∧
    img_eta_seconds [10, 20, 30] 2 = 40 := by
  refine ⟨?_, by norm_num [img_avg_time], fun k => rfl,
    by norm_num [img_avg_time], by decide,
    by norm_num [img_eta_seconds, img_avg_time]⟩
  have hlen : ft.length ≠ 0 := by
    simpa [List.length_eq_zero] using hft
  unfold img_avg_time
  simp [hlen]

/-- Counterexample for C9 as stated: in the mixed run c9_trace_world
the one-frame animation job at index 0 completes with frame duration
7 and the step dispatches the image job at index 1.  durationHistory
now holds a single animation-frame sample and no image-job sample, so
the claim mandates the fixed prior 30; the code instead averages the
animation sample and reports 7. -/
theorem C9_counterexample :
    (Except.map (fun r => (r.queue.items.get? 0).map
        (fun it => it.render_type))
      (on_render_post sceneOne 7 c9_trace_world))
      = Except.ok (some RenderType.ANIMATION) ∧
    (Except.map (fun r => (r.queue.items.get? 1).map
        (fun it => it.render_type))
      (on_render_post sceneOne 7 c9_trace_world))
      = Except.ok (some RenderType.IMAGE) ∧
    (Except.map (fun r => r.st.current_item_index)
      (on_render_post sceneOne 7 c9_trace_world)) = Except.ok 1 ∧
    (Except.map (fun r => r.st.frame_times)
      (on_render_post sceneOne 7 c9_trace_world)) = Except.ok [7] ∧
    img_avg_time [7] = 7 ∧
    spec_img_avg_time [] = 30 ∧
    (7 : ℚ) ≠ 30 := by
  refine ⟨by decide, by decide, by decide, ?_, ?_, ?_, ?_⟩
  · simp [on_render_post, c9_trace_world, sceneOne,
      render_queue_step_execute, step_go, get_next_render_item_from,
      get_next_render_item_go, pyGet, pySet, pyIndex, lookupScene,
      lookupObject, setScene, Except.map]
  · norm_num [img_avg_time]
  · norm_num [spec_img_avg_time]
  · norm_num

/-- Witness for the amended C9 at the concrete history 10, 20, 30. -/
theorem C9_image_eta_witness :
    ([10, 20, 30] : List ℚ) ≠ [] ∧
    (img_avg_time [10, 20, 30] = ([10, 20, 30] : List ℚ).sum /
        ((([10, 20, 30] : List ℚ).length : ℚ)) ∧
     img_avg_time [] = 30 ∧
     (∀ k : Nat, img_eta_seconds [10, 20, 30] k =
        img_avg_time [10, 20, 30] * (k : ℚ)) ∧
     img_avg_time [10, 20, 30] = 20 ∧
     img_remaining_jobs c9_instance_world.queue.items 0 = 2 ∧
     img_eta_seconds [10, 20, 30] 2 = 40) :=
  ⟨by simp, C9_image_eta [10, 20, 30] (by simp)⟩
